import Mathlib

/-!
Verification of the project-orchestrator estimation engine.

The development shallowly embeds the two Python estimator implementations
(`src/agents.py` — the template-driven multi-agent pipeline — and
`src/backend/app/agents.py` — the lightweight orchestrator), plus the
rate-card store of `src/backend/app/db.py`, as executable Lean functions.

Modelling conventions:
* Python `float` arithmetic is modelled by `ℚ`.  Every concrete value
  asserted by a theorem in this file has been checked to be far enough from
  a rounding tie that IEEE-754 double arithmetic rounds identically.
* Python `round` is round-half-to-even (`pyRound`); `round(x, 2)` and
  `round(x, -2)` are `pyRound2` / `pyRoundNeg2`.
* Python `str.lower` is `pyLower` (inputs are ASCII); the substring test
  `needle in hay` is `pyContains hay needle`.
* Python dicts used as keyword tables are association lists in source
  order; dict iteration order is insertion order, as in CPython 3.7+.
* Statements that in Python raise exceptions are modelled in `Except
  PyError`; code whose only possible exception is unreachable for the
  inputs a theorem quantifies over is modelled as a total function.
-/

namespace PySem

/-- Python `str.lower()` (ASCII inputs). -/
def pyLower (s : String) : String := ⟨s.data.map Char.toLower⟩

/-- Python substring test `needle in hay`. -/
def pyContains (hay needle : String) : Bool :=
  hay.data.tails.any (fun t => needle.data.isPrefixOf t)

/-- Python `round(q)`: round half to even, returning an integer. -/
def pyRound (q : ℚ) : ℤ :=
  if q - ⌊q⌋ < 1/2 then ⌊q⌋
  else if 1/2 < q - ⌊q⌋ then ⌊q⌋ + 1
  else if ⌊q⌋ % 2 = 0 then ⌊q⌋ else ⌊q⌋ + 1

/-- Python `round(q, 2)`. -/
def pyRound2 (q : ℚ) : ℚ := (pyRound (q * 100) : ℚ) / 100

/-- Python `round(q, -2)`. -/
def pyRoundNeg2 (q : ℚ) : ℚ := (pyRound (q / 100) : ℚ) * 100

end PySem

open PySem

/-! ## `src/agents.py`: the template-driven pipeline -/

namespace Agents

/-- `IntentExtractorAgent._detect_project_type` (src/agents.py:28). -/
def detect_project_type (text : String) : String :=
  if ["wordpress", "wp", "cms"].any (fun w => pyContains text w) then "wordpress"
  else if ["hubspot", "crm", "portal"].any (fun w => pyContains text w) then "hubspot"
  else if [".net", "react", "web app", "application"].any (fun w => pyContains text w) then "web_app"
  else if ["aws", "azure", "cloud", "hosting", "ci/cd"].any (fun w => pyContains text w) then "cloud"
  else "unknown"

/-- The feature keyword table of `IntentExtractorAgent._extract_features`
(src/agents.py:42), in source (dict-insertion) order. -/
def feature_keywords : List (String × List String) :=
  [("booking", ["appointment", "booking", "schedule"]),
   ("blog", ["blog", "articles", "posts"]),
   ("reviews", ["review", "rating", "testimonial"]),
   ("ecommerce", ["shop", "store", "payment", "cart"]),
   ("auth", ["login", "register", "authentication"]),
   ("api", ["api", "integration", "connect"])]

/-- `IntentExtractorAgent._extract_features` (src/agents.py:40). -/
def extract_features (text : String) : List String :=
  (feature_keywords.filter (fun p => p.2.any (fun k => pyContains text k))).map Prod.fst

/-- `IntentExtractorAgent._identify_missing_info` (src/agents.py:57).
The `features` parameter is unused, as in the source. -/
def identify_missing_info (project_type : String) (_features : List String) (text : String) :
    List String :=
  if project_type = "wordpress" then
    (if pyContains text "design" then [] else ["design_preferences"]) ++
    (if pyContains text "content" then [] else ["content_migration"]) ++
    (if pyContains text "plugins" then [] else ["specific_plugins"])
  else if project_type = "web_app" then
    (if pyContains text "users" then [] else ["target_users"]) ++
    (if pyContains text "data" then [] else ["data_volume"]) ++
    (if pyContains text "integrations" then [] else ["external_integrations"])
  else []

/-- `IntentExtractorAgent._calculate_confidence` (src/agents.py:78). -/
def calculate_intent_confidence (project_type : String) (features : List String) : String :=
  if project_type = "unknown" then "low"
  else if features.length ≥ 3 then "high"
  else if features.length = 2 then "medium"
  else "medium-low"

/-- `IntentExtractorAgent._generate_summary` (src/agents.py:88). -/
def generate_summary (project_type : String) (features : List String) : String :=
  let feature_list := if features.isEmpty then "no specific features"
                      else String.intercalate ", " features
  s!"Detected project type: {project_type}. Features mentioned: {feature_list}."

/-- The dict returned by `IntentExtractorAgent.extract_intent` (src/agents.py:20). -/
structure IntentData where
  projectType : String
  detectedFeatures : List String
  missingFields : List String
  confidence : String
  summary : String
deriving DecidableEq, Repr

/-- `IntentExtractorAgent.extract_intent` (src/agents.py:7). -/
def extract_intent (client_input : String) : IntentData :=
  let input_lower := pyLower client_input
  let project_type := detect_project_type input_lower
  let features := extract_features input_lower
  let missing_info := identify_missing_info project_type features input_lower
  { projectType := project_type
    detectedFeatures := features
    missingFields := missing_info
    confidence := calculate_intent_confidence project_type features
    summary := generate_summary project_type features }

/-- The per-project-type base question lists of
`QuestionnaireAgent._get_base_questions` (src/agents.py:112). -/
def base_questions_table : List (String × List String) :=
  [("wordpress",
    ["Do you have existing brand guidelines or design preferences?",
     "Will you need content migration from an existing website?",
     "What specific functionality do you need beyond basic pages?",
     "Do you have preferred hosting or domain setup?",
     "What\x27s your expected timeline for launch?"]),
   ("web_app",
    ["Who are the primary users of this application?",
     "What\x27s the expected number of concurrent users?",
     "Do you need mobile responsiveness or native mobile apps?",
     "What security requirements do you have?",
     "Are there existing systems to integrate with?"])]

/-- `QuestionnaireAgent._get_base_questions` (src/agents.py:112). -/
def get_base_questions (project_type : String) : List String :=
  (base_questions_table.lookup project_type).getD []

/-- The field-to-question mapping of `QuestionnaireAgent._get_specific_questions`
(src/agents.py:134). -/
def specific_question_table : List (String × String) :=
  [("projectType", "What kind of project is this (e.g., web app, WordPress site, HubSpot portal)?"),
   ("features", "Which key features are required (e.g., booking, e-commerce, CRM)?"),
   ("integrations", "Are there integrations with other systems or APIs?"),
   ("platforms", "Which platforms should this run on (e.g., web, iOS, Android)?"),
   ("security", "Do you have specific security or authentication needs?"),
   ("compliance", "Are there compliance standards to meet (HIPAA, GDPR, etc.)?"),
   ("assumptions", "Any assumptions or constraints we should be aware of?")]

/-- `QuestionnaireAgent._get_specific_questions` (src/agents.py:131): for each
missing field present in the mapping, append its question. -/
def get_specific_questions (missing_fields : List String) : List String :=
  missing_fields.filterMap (fun f => specific_question_table.lookup f)

/-- `QuestionnaireAgent._get_required_fields` (src/agents.py:148). -/
def get_required_fields (project_type : String) : List String :=
  ([("wordpress", ["design_preferences", "content_migration", "specific_plugins"]),
    ("web_app", ["target_users", "data_volume", "external_integrations"]),
    ("hubspot", ["crm_setup_details", "portal_requirements", "integration_needs"]),
    ("cloud", ["ci_cd_setup", "monitoring_requirements", "backup_strategy"])].lookup
      project_type).getD []

/-- The dict returned by `QuestionnaireAgent.generate_questions` (src/agents.py:106). -/
structure Questionnaire where
  questions : List String
  expectedFormat : String
  requiredFields : List String
deriving DecidableEq, Repr

/-- `QuestionnaireAgent.generate_questions` (src/agents.py:94), taking the two
dict entries it reads from `intent_data`. -/
def generate_questions (project_type : String) (missing_fields : List String) : Questionnaire :=
  let questions := get_base_questions project_type
  let specific_questions := get_specific_questions missing_fields
  let all_questions := questions ++ specific_questions
  { questions := all_questions.take 7
    expectedFormat := "json"
    requiredFields := get_required_fields project_type }

/-- The questionnaire-answers dict consumed by `ScopeBuilderAgent.build_scope`;
a key absent from the Python dict is `none`. -/
structure Answers where
  additional_features : Option (List String) := none
  integrations : Option (List String) := none
  platforms : Option (List String) := none
  design_preferences : Option String := none
  compliance : Option String := none
  assumptions : Option (List String) := none
deriving DecidableEq, Repr

/-- `ProjectScope` (src/models.py:10). -/
structure ProjectScope where
  projectType : String
  features : List String
  integrations : List String
  platforms : List String
  security : String
  compliance : String
  assumptions : List String
deriving DecidableEq, Repr

/-- `ScopeBuilderAgent._compile_features` (src/agents.py:173).  The Python code
aliases `intent_data["detectedFeatures"]` and `extend`s it in place when
`"additional_features"` is answered, so the function returns both the compiled
feature list and the (possibly mutated) intent data. -/
def compile_features (intent_data : IntentData) (answers : Answers) :
    List String × IntentData :=
  match answers.additional_features with
  | some extra =>
      let base_features := intent_data.detectedFeatures ++ extra
      (base_features.dedup, { intent_data with detectedFeatures := base_features })
  | none => (intent_data.detectedFeatures.dedup, intent_data)

/-- `ScopeBuilderAgent._identify_integrations` (src/agents.py:180). -/
def identify_integrations (answers : Answers) : List String :=
  answers.integrations.getD []

/-- `ScopeBuilderAgent._determine_platforms` (src/agents.py:184). -/
def determine_platforms (_project_type : String) (answers : Answers) : List String :=
  let dp := pyLower (answers.design_preferences.getD "")
  let platforms :=
    (if pyContains dp "mobile" || pyContains dp "responsive" then ["Web (Responsive)"] else []) ++
    answers.platforms.getD []
  if platforms.isEmpty then ["Web"] else platforms

/-- `ScopeBuilderAgent._assess_security_needs` (src/agents.py:192). -/
def assess_security_needs (project_type : String) (_answers : Answers) : String :=
  if project_type = "web_app" then "standard" else "basic"

/-- `ScopeBuilderAgent._identify_compliance` (src/agents.py:198). -/
def identify_compliance (answers : Answers) : String :=
  answers.compliance.getD ""

/-- `ScopeBuilderAgent._generate_assumptions` (src/agents.py:202). -/
def generate_assumptions (_project_type : String) (answers : Answers) : List String :=
  answers.assumptions.getD ["No assumptions specified."]

/-- `ScopeBuilderAgent.build_scope` (src/agents.py:160); the second component
is the caller's `intent_data` after the call (see `compile_features`). -/
def build_scope (intent_data : IntentData) (answers : Answers) :
    ProjectScope × IntentData :=
  let project_type := intent_data.projectType
  let fi := compile_features intent_data answers
  ({ projectType := project_type
     features := fi.1
     integrations := identify_integrations answers
     platforms := determine_platforms project_type answers
     security := assess_security_needs project_type answers
     compliance := identify_compliance answers
     assumptions := generate_assumptions project_type answers },
   fi.2)

/-- A per-feature entry of an estimation template (src/agents.py:222 etc.). -/
structure FeatureTemplate where
  hours : ℚ
  complexity : String
deriving DecidableEq, Repr

/-- A per-project-type estimation template (src/agents.py:212). -/
structure Template where
  base_hours : ℚ
  team_composition : List (String × ℚ)
  features : List (String × FeatureTemplate)
deriving DecidableEq, Repr

/-- `EstimatorAgent._load_project_templates` (src/agents.py:212), in source order. -/
def project_templates : List (String × Template) :=
  [("wordpress",
    { base_hours := 80
      team_composition :=
        [("Project Manager", 0.15), ("WordPress Developer", 0.60), ("UI/UX Designer", 0.25)]
      features :=
        [("booking", ⟨40, "medium"⟩), ("blog", ⟨20, "low"⟩), ("reviews", ⟨25, "medium"⟩),
         ("ecommerce", ⟨60, "high"⟩), ("contact_forms", ⟨15, "low"⟩)] }),
   ("web_app",
    { base_hours := 120
      team_composition :=
        [("Project Manager", 0.12), ("Frontend Dev", 0.35), ("Backend Dev", 0.40),
         ("QA Engineer", 0.13)]
      features :=
        [("auth", ⟨40, "medium"⟩), ("crud", ⟨60, "medium"⟩), ("reports", ⟨50, "high"⟩),
         ("api", ⟨45, "medium"⟩)] }),
   ("hubspot",
    { base_hours := 100
      team_composition :=
        [("Project Manager", 0.10), ("HubSpot Developer", 0.70), ("QA Engineer", 0.20)]
      features :=
        [("crm_setup", ⟨40, "medium"⟩), ("portal", ⟨80, "high"⟩),
         ("integration", ⟨60, "high"⟩)] }),
   ("cloud",
    { base_hours := 40
      team_composition :=
        [("Project Manager", 0.10), ("DevOps Engineer", 0.70), ("Cloud Architect", 0.20)]
      features :=
        [("ci_cd", ⟨30, "medium"⟩), ("monitoring", ⟨25, "medium"⟩),
         ("backup", ⟨20, "low"⟩)] })]

/-- The rate card the orchestrator constructs the estimator with
(`DevelopmentProposalOrchestrator._initialize_rate_card`, src/main.py:21). -/
def main_rate_card : List (String × ℚ) :=
  [("Frontend Dev", 85), ("Backend Dev", 95), ("Full Stack Dev", 90),
   ("DevOps Engineer", 105), ("Project Manager", 90), ("QA Engineer", 75),
   ("UI/UX Designer", 85), ("WordPress Developer", 80), ("HubSpot Developer", 95),
   ("Cloud Architect", 110)]

/-- `EstimatorAgent._calculate_integration_hours` (src/agents.py:305). -/
def calculate_integration_hours (integrations : List String) : ℚ :=
  if integrations.isEmpty then 0 else integrations.length * 10

/-- `EstimatorAgent._calculate_base_hours` (src/agents.py:313). -/
def calculate_base_hours (scope : ProjectScope) : ℚ :=
  match project_templates.lookup scope.projectType with
  | some t => t.base_hours
  | none => 100

/-- `EstimatorAgent._calculate_feature_hours` (src/agents.py:318). -/
def calculate_feature_hours (features : List String) (project_type : String) : ℚ :=
  let feature_templates :=
    match project_templates.lookup project_type with
    | some t => t.features
    | none => []
  features.foldl
    (fun acc f => acc + (match feature_templates.lookup f with
                         | some fc => fc.hours
                         | none => 0)) 0

/-- The multiplier built by `EstimatorAgent._apply_complexity_factors`
(src/agents.py:354). -/
def complexity_multiplier (scope : ProjectScope) : ℚ :=
  let m : ℚ := 1.0
  let m := if ¬ scope.integrations.isEmpty then m + scope.integrations.length * 0.1 else m
  let m := if scope.security ≠ "" ∧ scope.security ≠ "basic" then m + 0.2 else m
  let m := if scope.compliance ≠ "" then m + 0.3 else m
  m + 0.15

/-- `EstimatorAgent._apply_complexity_factors` (src/agents.py:354). -/
def apply_complexity_factors (hours : ℚ) (scope : ProjectScope) : ℚ :=
  hours * complexity_multiplier scope

/-- One element of the `roles` list built by
`EstimatorAgent._determine_team_composition` (src/agents.py:341). -/
structure Role where
  name : String
  hours : ℤ
  rate : ℚ
  cost : ℤ
deriving DecidableEq, Repr

/-- `EstimatorAgent._determine_team_composition` (src/agents.py:330). -/
def determine_team_composition (total_hours : ℚ) (scope : ProjectScope)
    (rate_card : List (String × ℚ)) : List Role :=
  let team_composition :=
    match project_templates.lookup scope.projectType with
    | some t => t.team_composition
    | none => []
  team_composition.map (fun rp =>
    let role_hours := total_hours * rp.2
    let rate := (rate_card.lookup rp.1).getD 85
    { name := rp.1, hours := pyRound role_hours, rate := rate,
      cost := pyRound (role_hours * rate) })

/-- `EstimatorAgent._calculate_total_cost` (src/agents.py:350). -/
def calculate_total_cost (roles : List Role) : ℚ :=
  (roles.map (fun r => (r.cost : ℚ))).sum

/-- One element of the `phases` list built by `EstimatorAgent._calculate_phases`
(src/agents.py:416). -/
structure Phase where
  phase : String
  hours : ℤ
  cost : ℤ
deriving DecidableEq, Repr

/-- The `web_app` phase distribution (src/agents.py:385), the default for
project types without one. -/
def web_app_distribution : List (String × ℚ) :=
  [("Discovery & Planning", 0.15), ("Design", 0.20), ("Development", 0.40),
   ("Testing", 0.20), ("Deployment", 0.05)]

/-- The phase-distribution table of `EstimatorAgent._calculate_phases`
(src/agents.py:377). -/
def phase_distributions : List (String × List (String × ℚ)) :=
  [("wordpress",
    [("Discovery & Planning", 0.10), ("Design", 0.25), ("Development", 0.45),
     ("Testing", 0.15), ("Deployment", 0.05)]),
   ("web_app", web_app_distribution),
   ("hubspot",
    [("Discovery & Planning", 0.15), ("Configuration", 0.35), ("Development", 0.30),
     ("Testing", 0.15), ("Training", 0.05)]),
   ("cloud",
    [("Planning", 0.20), ("Implementation", 0.50), ("Testing", 0.20),
     ("Documentation", 0.10)])]

/-- `EstimatorAgent._calculate_phases` (src/agents.py:375).  The Python code
divides by `len(self.rate_card)`; every theorem below instantiates the
engine's fixed, non-empty `main_rate_card`, for which that division is safe. -/
def calculate_phases (total_hours : ℚ) (scope : ProjectScope)
    (rate_card : List (String × ℚ)) : List Phase :=
  let distribution := (phase_distributions.lookup scope.projectType).getD web_app_distribution
  distribution.map (fun pp =>
    let phase_hours := total_hours * pp.2
    let avg_rate := (rate_card.map Prod.snd).sum / (rate_card.length : ℚ)
    { phase := pp.1, hours := pyRound phase_hours, cost := pyRound (phase_hours * avg_rate) })

/-- `EstimatorAgent._calculate_confidence` (src/agents.py:424); `similarity`
is `knowledge_data.get("similarity_score", 0.5)`. -/
def calculate_estimate_confidence (scope : ProjectScope) (similarity : Option ℚ) :
    String × ℚ :=
  let confidence_factors : List ℚ :=
    [if ¬ scope.features.isEmpty then 0.8 else 0.3,
     0.7,
     similarity.getD 0.5,
     if scope.integrations.length > 2 then 0.6 else 0.8]
  let avg_confidence := confidence_factors.sum / (confidence_factors.length : ℚ)
  if avg_confidence ≥ 0.8 then ("P90", 0.10)
  else if avg_confidence ≥ 0.7 then ("P80", 0.15)
  else if avg_confidence ≥ 0.6 then ("P70", 0.20)
  else ("P50", 0.30)

/-- `Estimate` (src/models.py:20). -/
structure Estimate where
  roles : List Role
  phases : List Phase
  totalHours : ℤ
  totalCost : ℚ
  confidence : String
  variance : ℚ
deriving DecidableEq, Repr

/-- `EstimatorAgent.estimate_project` (src/agents.py:273). -/
def estimate_project (rate_card : List (String × ℚ)) (scope : ProjectScope)
    (similarity : Option ℚ) : Estimate :=
  let base_hours := calculate_base_hours scope
  let feature_hours := calculate_feature_hours scope.features scope.projectType
  let integration_hours := calculate_integration_hours scope.integrations
  let total_raw_hours := base_hours + feature_hours + integration_hours
  let total_hours := apply_complexity_factors total_raw_hours scope
  let roles := determine_team_composition total_hours scope rate_card
  let phases := calculate_phases total_hours scope rate_card
  let total_cost := calculate_total_cost roles
  let cv := calculate_estimate_confidence scope similarity
  { roles := roles
    phases := phases
    totalHours := pyRound total_hours
    totalCost := pyRoundNeg2 total_cost
    confidence := cv.1
    variance := cv.2 }

/-- Exceptions whose raising this development models. -/
inductive PyError where
  | zeroDivision
  | nameError (n : String)
  | externalCallError
  | valueError
deriving DecidableEq, Repr

/-- The dict returned by `ReviewerAgent.validate_proposal` (src/agents.py:558). -/
structure Verdict where
  approved : Bool
  issues : List String
  requires_human_review : Bool
deriving DecidableEq, Repr

/-- `ReviewerAgent._has_pricing_anomaly` (src/agents.py:564).  Dividing by
`len(estimate.roles)` raises `ZeroDivisionError` when the roles list is
empty, as does the later `/ avg_rate` when the average rate is zero. -/
def has_pricing_anomaly (estimate : Estimate) : Except PyError Bool :=
  if estimate.roles.isEmpty then .error .zeroDivision
  else
    let avg_rate := (estimate.roles.map (fun r => r.rate)).sum / (estimate.roles.length : ℚ)
    if avg_rate = 0 then .error .zeroDivision
    else
      .ok (estimate.roles.any (fun role =>
        let role_rate := (role.cost : ℚ) / (max role.hours 1 : ℤ)
        |role_rate - avg_rate| / avg_rate > 0.5))

/-- `ReviewerAgent.validate_proposal` (src/agents.py:543). -/
def validate_proposal (scope : ProjectScope) (estimate : Estimate) :
    Except PyError Verdict :=
  let issues : List String :=
    (if estimate.confidence = "P50" ∨ estimate.confidence = "P60"
     then ["Low confidence estimate - requires PM review"] else []) ++
    (if scope.features.any (fun f => pyContains f "TBD")
     then ["Undefined features in scope"] else [])
  match has_pricing_anomaly estimate with
  | .error e => .error e
  | .ok anomaly =>
      let issues := issues ++ (if anomaly then ["Pricing anomaly detected"] else [])
      .ok { approved := issues.isEmpty
            issues := issues
            requires_human_review := ¬ issues.isEmpty }

end Agents

/-! ## `src/backend/app/db.py`: the rate-card store -/

namespace Db

/-- `DEFAULT_RATE_CARD` (src/backend/app/db.py:75). -/
def DEFAULT_RATE_CARD : List (String × ℚ) :=
  [("Software Developer", 80), ("Senior Software Developer", 120),
   ("Software Architect", 150), ("WordPress Developer", 70),
   ("Project Manager", 95), ("Cloud Architect / DevOps Engineer", 140)]

/-- One upsert step of `RateCardStore.update_rate_card` (src/backend/app/db.py:107):
update the row for `role` if present, else insert it. -/
def upsert_role (card : List (String × ℚ)) (role : String) (rate : ℚ) :
    List (String × ℚ) :=
  if card.any (fun p => p.1 = role) then
    card.map (fun p => if p.1 = role then (p.1, rate) else p)
  else card ++ [(role, rate)]

/-- `RateCardStore.update_rate_card` (src/backend/app/db.py:103): upsert every
provided role, then delete the roles not present in `new_card`.  The table is
modelled as an association list whose keys are unique (the `role` column has a
UNIQUE constraint). -/
def update_rate_card (stored : List (String × ℚ)) (new_card : List (String × ℚ)) :
    List (String × ℚ) :=
  let upserted := new_card.foldl (fun acc p => upsert_role acc p.1 p.2) stored
  upserted.filter (fun p => new_card.any (fun q => q.1 = p.1))

/-- `RateCardStore.get_rate_card` (src/backend/app/db.py:93): the stored rows,
or the default card when the table is empty. -/
def get_rate_card (stored : List (String × ℚ)) : List (String × ℚ) :=
  if stored.isEmpty then DEFAULT_RATE_CARD else stored

end Db

/-! ## `src/backend/app/agents.py`: the lightweight orchestrator -/

namespace Backend

/-- `FEATURE_KEYWORDS` (src/backend/app/agents.py:20). -/
def FEATURE_KEYWORDS : List String :=
  ["auth", "login", "signup", "payment", "ecommerce", "shop", "cart", "checkout",
   "api", "integration", "crm", "hubspot", "reports", "dashboard", "analytics",
   "admin", "upload", "download", "image", "media", "wordpress", "blog", "search",
   "video", "stream", "newsletter", "billing", "account", "profile", "map", "zip"]

/-- `DevelopmentProposalOrchestrator._extract_features`
(src/backend/app/agents.py:48): matching keywords, deduplicated and sorted. -/
def extract_features (text : String) : List String :=
  let txt := pyLower text
  let found := FEATURE_KEYWORDS.filter (fun k => pyContains txt k)
  found.dedup.mergeSort (fun a b => a ≤ b)

/-- `DevelopmentProposalOrchestrator.generate_clarifying_questions`
(src/backend/app/agents.py:96).  `counter_keys` abstracts the knowledge base:
it is the key list of `_historic_insights(...)["common_questions"]`, ordered
by decreasing count (a `Counter` has pairwise-distinct keys);
`most_common(3)` is its first three entries. -/
def generate_clarifying_questions (text : String) (counter_keys : List String) :
    List String :=
  let features := extract_features text
  let base₁ : List String :=
    ["What\x27s the target launch timeframe (rough)?",
     "Who are the primary users of this product?",
     "Which core features must be included (e.g. auth, payments, search, user profiles)?"]
  let base₂ := base₁ ++
    (if features.any (fun k => ["payment", "ecommerce", "shop", "checkout", "cart"].contains k)
     then ["Will payments be processed on the site? Which provider (Stripe, PayPal, other)?"]
     else [])
  let base₃ := base₂ ++
    (if features.any (fun k => ["api", "integration", "crm", "hubspot"].contains k)
     then ["Please list any third-party systems you must integrate with (CRM, payment, identity)."]
     else [])
  let base_questions := base₃ ++
    ["Who will provide content (text/images)?",
     "Do you have a preferred budget range or ballpark figure?"]
  let common_qs := counter_keys.take 3
  let final := base_questions ++ common_qs.filter (fun q => ¬ base_questions.contains q)
  final.take 6

/-- The module-level names bound in `src/backend/app/agents.py` when
`_call_openai_refine` runs: the imports of lines 1–17 (with `openai` bound,
possibly to `None`, by the `try`/`except` import), the module constants, and
the class itself.  `jsonschema` and `validate` are not among them. -/
def module_globals : List String :=
  ["Dict", "List", "Any", "Optional", "datetime", "os", "re", "math", "json",
   "base64", "time", "Counter", "openai", "RateCardStore", "SowKnowledgeStore",
   "FEATURE_KEYWORDS", "OPENAI_API_KEY", "DevelopmentProposalOrchestrator"]

/-- A schema-valid advisory payload `{adjusted_total_cost, rationale?}`
(the schema of `_call_openai_refine`, src/backend/app/agents.py:134). -/
structure MLResp where
  adjusted_total_cost : ℚ
  rationale : Option String
deriving DecidableEq, Repr

/-- What one attempt of `_call_openai_refine` receives from the outside world:
the `openai.ChatCompletion.create` call raised, or `json.loads` failed on the
response text, or parsing produced a schema-valid object. -/
inductive AttemptOutcome where
  | callRaised
  | parseFailed
  | parsedOk (parsed : MLResp)
deriving DecidableEq, Repr

/-- The body of one `while` iteration of `_call_openai_refine`
(src/backend/app/agents.py:155-178).  After a successful parse the code
evaluates `if jsonschema:`; `jsonschema` is not a bound module-level name
(see `module_globals`), so that line raises `NameError`, which the
surrounding `except Exception` catches like any other failure. -/
def refine_attempt (outcome : AttemptOutcome) : Except Agents.PyError MLResp :=
  match outcome with
  | .callRaised => .error .externalCallError
  | .parseFailed => .error .valueError
  | .parsedOk parsed =>
      if module_globals.contains "jsonschema" then
        -- would run `validate(instance=parsed, schema=schema)`, which succeeds
        -- on a schema-valid payload, then `return parsed`
        .ok parsed
      else
        .error (.nameError "jsonschema")

/-- The retry loop of `_call_openai_refine`: up to `remaining` further
attempts, returning the first successfully validated payload. -/
def refine_loop (outcomes : Nat → AttemptOutcome) (attempt remaining : Nat) :
    Option MLResp :=
  match remaining with
  | 0 => none
  | r + 1 =>
      match refine_attempt (outcomes attempt) with
      | .ok v => some v
      | .error _ => refine_loop outcomes (attempt + 1) r

/-- `DevelopmentProposalOrchestrator._call_openai_refine`
(src/backend/app/agents.py:124): `None` unless the `openai` module imported
and `OPENAI_API_KEY` is truthy, else at most `max_attempts = 3` attempts. -/
def call_openai_refine (openai_imported key_truthy : Bool)
    (outcomes : Nat → AttemptOutcome) : Option MLResp :=
  if ¬ openai_imported ∨ ¬ key_truthy then none
  else refine_loop outcomes 0 3

/-- The adjusted-cost computation of `process_followup`
(src/backend/app/agents.py:240-255): a truthy `adjusted_total_cost` from the
advisory response replaces the raw cost; only when the advisory call returned
`None` and the historical average price is truthy is the 0.6/0.4 blend used. -/
def adjusted_total_cost_calc (raw_total_cost : ℚ) (ml_resp : Option MLResp)
    (avg_hist_price : Option ℚ) : ℚ :=
  let adjusted :=
    match ml_resp with
    | some v => if v.adjusted_total_cost ≠ 0 then v.adjusted_total_cost else raw_total_cost
    | none => raw_total_cost
  match ml_resp with
  | some _ => adjusted
  | none =>
      match avg_hist_price with
      | some p => if p ≠ 0 then pyRound2 (raw_total_cost * 0.6 + p * 0.4) else adjusted
      | none => adjusted

/-- The canonical role set of `DevelopmentProposalOrchestrator.update_rate_card`
(src/backend/app/agents.py:319). -/
def canonical_roles : List String :=
  ["Software Developer", "Senior Software Developer", "Software Architect",
   "WordPress Developer", "Project Manager", "Cloud Architect / DevOps Engineer"]

/-- `DevelopmentProposalOrchestrator.update_rate_card`
(src/backend/app/agents.py:317): keep only canonical roles and, when any
remain, replace the stored card through `RateCardStore.update_rate_card`. -/
def orchestrator_update_rate_card (stored : List (String × ℚ))
    (new_card : List (String × ℚ)) : List (String × ℚ) :=
  let filtered := new_card.filter (fun p => canonical_roles.contains p.1)
  if ¬ filtered.isEmpty then Db.update_rate_card stored filtered else stored

end Backend

/-! ## Concrete inputs used by the theorems -/

/-- The concrete client input of the spec's end-to-end scenario. -/
def c2_input : String := "We need a WordPress site with appointment booking and a blog"

/-- The scope the pipeline builds for `c2_input` with no questionnaire answers. -/
def c2_scope : Agents.ProjectScope :=
  (Agents.build_scope (Agents.extract_intent c2_input) {}).1

/-- A bare `web_app` scope: no features, integrations, compliance; basic security. -/
def webAppBareScope : Agents.ProjectScope :=
  { projectType := "web_app", features := [], integrations := [], platforms := ["Web"],
    security := "basic", compliance := "", assumptions := [] }

/-- A `wordpress` scope with features booking, blog and reviews (raw hours 165,
total hours 189.75) on which the phase-hour sum drifts 2 below `totalHours`. -/
def phaseDriftScope : Agents.ProjectScope :=
  { projectType := "wordpress", features := ["booking", "blog", "reviews"],
    integrations := [], platforms := ["Web"], security := "basic", compliance := "",
    assumptions := [] }

/-- An estimate with an empty roles list, as `estimate_project` produces for a
project type with no team-composition template (e.g. `"unknown"`). -/
def emptyRolesEstimate : Agents.Estimate :=
  { roles := [], phases := [], totalHours := 115, totalCost := 9800,
    confidence := "P70", variance := 0.20 }

/-! ## Theorems -/

namespace PySem

/-- The rounding error of Python `round` is at most 1/2. -/
theorem pyRound_err (q : ℚ) : |(pyRound q : ℚ) - q| ≤ 1/2 := by
  have h1 : (⌊q⌋ : ℚ) ≤ q := Int.floor_le q
  have h2 : q < ⌊q⌋ + 1 := Int.lt_floor_add_one q
  unfold pyRound
  split
  · next h => rw [abs_le]; constructor <;> linarith
  · next h =>
    split
    · next h' => rw [abs_le]; push_cast; constructor <;> linarith
    · next h' =>
      have heq : q - ⌊q⌋ = 1/2 := le_antisymm (le_of_not_lt h') (le_of_not_lt h)
      split <;> (rw [abs_le]; push_cast; constructor <;> linarith)

theorem pyRound_intCast (z : ℤ) : pyRound (z : ℚ) = z := by
  unfold pyRound
  rw [Int.floor_intCast]
  norm_num

end PySem

/-- C2: on the input "We need a WordPress site with appointment booking and a
blog", with empty answers, the pipeline detects project type `wordpress` and
features booking and blog, and the estimator computes feature hours 60, base
hours 80, integration hours 0, complexity multiplier 1.15, raw hours 140 and
`totalHours` 161. -/
theorem C2_concrete_scenario :
    (Agents.extract_intent c2_input).projectType = "wordpress" ∧
    (Agents.extract_intent c2_input).detectedFeatures = ["booking", "blog"] ∧
    c2_scope.features = ["booking", "blog"] ∧
    Agents.calculate_feature_hours c2_scope.features c2_scope.projectType = 60 ∧
    Agents.calculate_base_hours c2_scope = 80 ∧
    Agents.calculate_integration_hours c2_scope.integrations = 0 ∧
    Agents.complexity_multiplier c2_scope = 1.15 ∧
    Agents.calculate_base_hours c2_scope
      + Agents.calculate_feature_hours c2_scope.features c2_scope.projectType
      + Agents.calculate_integration_hours c2_scope.integrations = 140 ∧
    (Agents.estimate_project Agents.main_rate_card c2_scope none).totalHours = 161 := by
  have hscope : c2_scope =
      { projectType := "wordpress", features := ["booking", "blog"], integrations := [],
        platforms := ["Web"], security := "basic", compliance := "",
        assumptions := ["No assumptions specified."] } := by decide
  have hfh : Agents.calculate_feature_hours ["booking", "blog"] "wordpress" = 60 := by
    simp [Agents.calculate_feature_hours, Agents.project_templates, List.lookup]
    norm_num
  have hbh : Agents.calculate_base_hours
      { projectType := "wordpress", features := ["booking", "blog"], integrations := [],
        platforms := ["Web"], security := "basic", compliance := "",
        assumptions := ["No assumptions specified."] } = 80 := by
    simp [Agents.calculate_base_hours, Agents.project_templates, List.lookup]
  have hmu : Agents.complexity_multiplier
      { projectType := "wordpress", features := ["booking", "blog"], integrations := [],
        platforms := ["Web"], security := "basic", compliance := "",
        assumptions := ["No assumptions specified."] } = 1.15 := by
    simp [Agents.complexity_multiplier]
    norm_num
  refine ⟨by decide, by decide, by decide, ?_, ?_, ?_, ?_, ?_, ?_⟩
  · rw [hscope]; exact hfh
  · rw [hscope]; exact hbh
  · rw [hscope]; simp [Agents.calculate_integration_hours]
  · rw [hscope]; exact hmu
  · rw [hscope]
    simp [hbh, hfh, Agents.calculate_integration_hours]
    norm_num
  · rw [hscope]
    simp only [Agents.estimate_project, Agents.apply_complexity_factors]
    rw [hbh, hfh, hmu]
    simp only [Agents.calculate_integration_hours]
    norm_num [PySem.pyRound]

/-- C1: for a scope with no features, no integrations, basic security and no
compliance whose project type has a template, `totalHours` is
`round(base_hours * 1.15)` — the project-management buffer is the only
multiplier contribution; in particular `web_app` (base 120) gives 138. -/
theorem C1_pm_buffer_only (pt : String) (t : Agents.Template)
    (h : Agents.project_templates.lookup pt = some t)
    (plats assum : List String) (sim : Option ℚ) :
    (Agents.estimate_project Agents.main_rate_card
        { projectType := pt, features := [], integrations := [], platforms := plats,
          security := "basic", compliance := "", assumptions := assum } sim).totalHours
      = PySem.pyRound (t.base_hours * 1.15) ∧
    (Agents.estimate_project Agents.main_rate_card
        { projectType := "web_app", features := [], integrations := [], platforms := plats,
          security := "basic", compliance := "", assumptions := assum } sim).totalHours
      = 138 := by
  constructor
  · simp only [Agents.estimate_project, Agents.apply_complexity_factors]
    have hb : Agents.calculate_base_hours
        { projectType := pt, features := [], integrations := [], platforms := plats,
          security := "basic", compliance := "", assumptions := assum } = t.base_hours := by
      simp [Agents.calculate_base_hours, h]
    rw [hb]
    simp only [Agents.calculate_feature_hours, Agents.calculate_integration_hours,
      Agents.complexity_multiplier]
    norm_num
  · simp only [Agents.estimate_project, Agents.apply_complexity_factors]
    have hb : Agents.calculate_base_hours
        { projectType := "web_app", features := [], integrations := [], platforms := plats,
          security := "basic", compliance := "", assumptions := assum } = 120 := by
      simp [Agents.calculate_base_hours, Agents.project_templates, List.lookup]
    rw [hb]
    simp only [Agents.calculate_feature_hours, Agents.calculate_integration_hours,
      Agents.complexity_multiplier]
    norm_num [PySem.pyRound]

/-- Witness for C1 at project type `web_app`, whose template has base 120. -/
theorem C1_pm_buffer_only_witness :
    (Agents.estimate_project Agents.main_rate_card
        { projectType := "web_app", features := [], integrations := [], platforms := ["Web"],
          security := "basic", compliance := "", assumptions := [] } none).totalHours
      = 138 :=
  (C1_pm_buffer_only "web_app"
    { base_hours := 120
      team_composition :=
        [("Project Manager", 0.12), ("Frontend Dev", 0.35), ("Backend Dev", 0.40),
         ("QA Engineer", 0.13)]
      features :=
        [("auth", ⟨40, "medium"⟩), ("crud", ⟨60, "medium"⟩), ("reports", ⟨50, "high"⟩),
         ("api", ⟨45, "medium"⟩)] }
    rfl ["Web"] [] none).2

/-- C6: the extractors are total and deterministic: for every input string the
detected project type is one of the five valid types and the feature lists are
subsets of the configured tables; when no keyword matches (in particular on
the empty string) the result is type `unknown` with no features. -/
theorem C6_extractor_total (s : String) :
    ((Agents.extract_intent s).projectType
        ∈ ["wordpress", "hubspot", "web_app", "cloud", "unknown"]) ∧
    (Agents.extract_intent s).detectedFeatures ⊆ Agents.feature_keywords.map Prod.fst ∧
    Backend.extract_features s ⊆ Backend.FEATURE_KEYWORDS ∧
    ((∀ w ∈ ["wordpress", "wp", "cms", "hubspot", "crm", "portal", ".net", "react",
        "web app", "application", "aws", "azure", "cloud", "hosting", "ci/cd"],
        pyContains (pyLower s) w = false) →
      (Agents.extract_intent s).projectType = "unknown") ∧
    ((∀ p ∈ Agents.feature_keywords, ∀ k ∈ p.2, pyContains (pyLower s) k = false) →
      (Agents.extract_intent s).detectedFeatures = []) ∧
    (Agents.extract_intent "").projectType = "unknown" ∧
    (Agents.extract_intent "").detectedFeatures = [] ∧
    Backend.extract_features "" = [] := by
  have hempty : Backend.FEATURE_KEYWORDS.filter (fun k => pyContains (pyLower "") k) = [] := by
    decide
  refine ⟨?_, ?_, ?_, ?_, ?_, by decide, by decide, ?_⟩
  · simp only [Agents.extract_intent, Agents.detect_project_type]
    split_ifs <;> simp
  · intro x hx
    simp only [Agents.extract_intent] at hx
    simp only [Agents.extract_features] at hx
    obtain ⟨p, hp, rfl⟩ := List.mem_map.mp hx
    exact List.mem_map_of_mem _ (List.mem_of_mem_filter hp)
  · intro x hx
    simp only [Backend.extract_features, List.mem_mergeSort, List.mem_dedup] at hx
    exact List.mem_of_mem_filter hx
  · intro ht
    have hall : ∀ l : List String,
        (∀ w ∈ l, pyContains (pyLower s) w = false) →
        l.any (fun w => pyContains (pyLower s) w) = false := by
      intro l hl
      simp only [List.any_eq_false]
      intro w hw
      simp [hl w hw]
    simp only [Agents.extract_intent, Agents.detect_project_type]
    rw [hall ["wordpress", "wp", "cms"] (fun w hw => ht w (by simp only [List.mem_cons] at hw ⊢; tauto)),
       hall ["hubspot", "crm", "portal"] (fun w hw => ht w (by simp only [List.mem_cons] at hw ⊢; tauto)),
       hall [".net", "react", "web app", "application"] (fun w hw => ht w (by simp only [List.mem_cons] at hw ⊢; tauto)),
       hall ["aws", "azure", "cloud", "hosting", "ci/cd"] (fun w hw => ht w (by simp only [List.mem_cons] at hw ⊢; tauto))]
    simp
  · intro hf
    simp only [Agents.extract_intent, Agents.extract_features]
    have hfe : Agents.feature_keywords.filter
        (fun p => p.2.any fun k => pyContains (pyLower s) k) = [] := by
      rw [List.filter_eq_nil_iff]
      intro p hp
      simp only [Bool.not_eq_true, List.any_eq_false]
      intro k hk
      simp [hf p hp k hk]
    rw [hfe]
    simp
  · simp only [Backend.extract_features, hempty]
    simp [List.dedup_nil]

/-- Witness for C6 at the empty string, which matches no keyword. -/
theorem C6_extractor_total_witness :
    (Agents.extract_intent "").projectType = "unknown" ∧
    (Agents.extract_intent "").detectedFeatures = [] :=
  ⟨(C6_extractor_total "").2.2.2.1 (by decide),
   (C6_extractor_total "").2.2.2.2.1 (by decide)⟩

/-- C4 (code bug): `_call_openai_refine` can never return an advisory
correction — after every successful parse the line `if jsonschema:` evaluates
the name `jsonschema`, which is not bound in the module, raising `NameError`;
the `except` clause retries and after 3 attempts gives up, so `process_followup`
always falls back (never raising) to the 0.6/0.4 historical blend (or to the
raw heuristic cost when no history exists), even when the model answered with
a schema-valid correction. -/
theorem C4_advisory_correction_unreachable :
    (∀ (openai_imported key_truthy : Bool) (outcomes : Nat → Backend.AttemptOutcome),
      Backend.call_openai_refine openai_imported key_truthy outcomes = none) ∧
    Backend.call_openai_refine true true
      (fun _ => .parsedOk { adjusted_total_cost := 50000, rationale := none }) = none ∧
    Backend.adjusted_total_cost_calc 1000
      (Backend.call_openai_refine true true
        (fun _ => .parsedOk { adjusted_total_cost := 50000, rationale := none }))
      (some 2000) = 1400 ∧
    (∀ raw : ℚ, Backend.adjusted_total_cost_calc raw none none = raw) := by
  have hattempt : ∀ o : Backend.AttemptOutcome,
      Backend.refine_attempt o = .error (.nameError "jsonschema") ∨
      Backend.refine_attempt o = .error .externalCallError ∨
      Backend.refine_attempt o = .error .valueError := by
    intro o
    cases o <;> simp [Backend.refine_attempt, Backend.module_globals]
  have hnone : ∀ (a b : Bool) (outcomes : Nat → Backend.AttemptOutcome),
      Backend.call_openai_refine a b outcomes = none := by
    intro a b outcomes
    unfold Backend.call_openai_refine
    split
    · rfl
    · have h3 : ∀ (k : Nat), Backend.refine_loop outcomes k 3 = none := by
        intro k
        simp only [Backend.refine_loop]
        rcases hattempt (outcomes k) with h | h | h <;> rw [h] <;>
          rcases hattempt (outcomes (k+1)) with h' | h' | h' <;> rw [h'] <;>
          rcases hattempt (outcomes (k+2)) with h'' | h'' | h'' <;> rw [h'']
      exact h3 0
  refine ⟨hnone, hnone true true _, ?_, ?_⟩
  · rw [hnone true true _]
    norm_num [Backend.adjusted_total_cost_calc, PySem.pyRound2, PySem.pyRound]
  · intro raw
    simp [Backend.adjusted_total_cost_calc]

/-- C3 counterexample: on the bare `web_app` scope the engine (with the
`main.py` rate card) produces a Project Manager allocation with stored hours
`round(138*0.12) = 17`, rate 90 and cost `round(16.56*90) = 1490`, but
`round(17*90) = 1530 ≠ 1490`: the stored cost is computed from the unrounded
role hours, not from the stored rounded hours. -/
theorem C3_cost_invariant_counterexample :
    (Agents.estimate_project Agents.main_rate_card webAppBareScope none).roles.head?
      = some { name := "Project Manager", hours := 17, rate := 90, cost := 1490 } ∧
    ¬ ((1490 : ℤ) = PySem.pyRound ((17 : ℚ) * 90)) := by
  constructor
  · simp only [Agents.estimate_project, Agents.determine_team_composition, webAppBareScope,
      Agents.apply_complexity_factors]
    simp [Agents.project_templates, List.lookup, Agents.main_rate_card,
      Agents.calculate_base_hours, Agents.calculate_feature_hours,
      Agents.calculate_integration_hours, Agents.complexity_multiplier]
    constructor <;> norm_num [PySem.pyRound]
  · norm_num [PySem.pyRound]

/-- C3 (amended): every role allocation's stored cost is the rounding of
`raw_hours * rate` where `raw_hours = total_hours * fraction` is the role's
pre-rounding hour share — the same quantity whose rounding gives the stored
`hours` field.  (`cost = round(hours * rate)` with the stored, rounded `hours`
does not hold in general, see the counterexample.) -/
theorem C3_cost_from_unrounded_hours (rate_card : List (String × ℚ))
    (scope : Agents.ProjectScope) (sim : Option ℚ) (r : Agents.Role)
    (hr : r ∈ (Agents.estimate_project rate_card scope sim).roles) :
    ∃ raw_hours : ℚ,
      r.hours = PySem.pyRound raw_hours ∧ r.cost = PySem.pyRound (raw_hours * r.rate) := by
  simp only [Agents.estimate_project, Agents.determine_team_composition] at hr
  obtain ⟨rp, _, rfl⟩ := List.mem_map.mp hr
  exact ⟨_, rfl, rfl⟩

/-- Witness for the amended C3: the Project Manager allocation of the bare
`web_app` estimate has `hours = round(16.56)` and `cost = round(16.56 * 90)`. -/
theorem C3_cost_from_unrounded_hours_witness :
    ∃ raw_hours : ℚ,
      ({ name := "Project Manager", hours := 17, rate := 90, cost := 1490 } :
          Agents.Role).hours = PySem.pyRound raw_hours ∧
      ({ name := "Project Manager", hours := 17, rate := 90, cost := 1490 } :
          Agents.Role).cost = PySem.pyRound (raw_hours * 90) := by
  have hhead := C3_cost_invariant_counterexample.1
  have hmem : ({ name := "Project Manager", hours := 17, rate := 90, cost := 1490 } :
      Agents.Role) ∈ (Agents.estimate_project Agents.main_rate_card webAppBareScope none).roles := by
    cases hl : (Agents.estimate_project Agents.main_rate_card webAppBareScope none).roles with
    | nil => rw [hl] at hhead; simp at hhead
    | cons a t =>
        rw [hl] at hhead
        simp only [List.head?] at hhead
        cases hhead
        exact List.mem_cons_self _ _
  exact C3_cost_from_unrounded_hours Agents.main_rate_card webAppBareScope none _ hmem

/-- A successful association-list lookup comes from a member pair. -/
theorem lookup_mem_pair {β : Type} {a : String} {b : β} :
    ∀ {l : List (String × β)}, l.lookup a = some b → (a, b) ∈ l := by
  intro l
  induction l with
  | nil => intro h; simp [List.lookup] at h
  | cons p t ih =>
    obtain ⟨k, v⟩ := p
    intro h
    rw [List.lookup] at h
    cases hq : (a == k) with
    | true =>
        rw [hq] at h
        cases h
        rw [eq_of_beq hq]
        exact List.mem_cons_self _ _
    | false =>
        rw [hq] at h
        exact List.mem_cons_of_mem _ (ih h)

/-- The field-to-question table maps distinct fields to distinct questions. -/
theorem specific_table_value_inj (a a' b : String)
    (h : Agents.specific_question_table.lookup a = some b)
    (h' : Agents.specific_question_table.lookup a' = some b) : a = a' := by
  have m := lookup_mem_pair h
  have m' := lookup_mem_pair h'
  simp only [Agents.specific_question_table, List.mem_cons, List.not_mem_nil,
    or_false, Prod.mk.injEq] at m m'
  rcases m with m | m | m | m | m | m | m <;>
    rcases m' with m' | m' | m' | m' | m' | m' | m' <;> simp_all

/-- The base question list of any project type has no duplicates. -/
theorem get_base_questions_nodup (pt : String) : (Agents.get_base_questions pt).Nodup := by
  by_cases h1 : pt = "wordpress"
  · subst h1; decide
  by_cases h2 : pt = "web_app"
  · subst h2; decide
  simp [Agents.get_base_questions, Agents.base_questions_table, List.lookup,
    beq_eq_false_iff_ne.mpr h1, beq_eq_false_iff_ne.mpr h2]

/-- Every produced field-specific question is a value of the mapping table. -/
theorem specific_mem_values {mf : List String} {q : String}
    (hq : q ∈ Agents.get_specific_questions mf) :
    q ∈ Agents.specific_question_table.map Prod.snd := by
  simp only [Agents.get_specific_questions, List.mem_filterMap] at hq
  obtain ⟨f, _, hf⟩ := hq
  exact List.mem_map_of_mem _ (lookup_mem_pair hf)

/-- No base question is a value of the field-to-question table. -/
theorem base_specific_disjoint (pt : String) :
    ∀ q, q ∈ Agents.specific_question_table.map Prod.snd →
      q ∉ Agents.get_base_questions pt := by
  by_cases h1 : pt = "wordpress"
  · subst h1; decide
  by_cases h2 : pt = "web_app"
  · subst h2; decide
  simp [Agents.get_base_questions, Agents.base_questions_table, List.lookup,
    beq_eq_false_iff_ne.mpr h1, beq_eq_false_iff_ne.mpr h2]

/-- C5 counterexample: for project type `hubspot` (whose missing-field list is
always empty) `generate_questions` returns zero questions, violating the
claimed lower bound of 3. -/
theorem C5_question_count_counterexample :
    (Agents.generate_questions "hubspot" []).questions = [] ∧
    (Agents.generate_questions "hubspot" []).questions.length < 3 := by
  decide

/-- C5 (amended): both planners return at most 7 pairwise-distinct questions
(for duplicate-free missing fields / historical questions); the length lies in
`[3,7]` for the template pipeline only when the project type has base
questions (`wordpress`, `web_app`), while the backend planner always returns
between 3 and 6 questions. -/
theorem C5_question_plan_bounds :
    (∀ (pt : String) (mf : List String), mf.Nodup →
      (Agents.generate_questions pt mf).questions.length ≤ 7 ∧
      (Agents.generate_questions pt mf).questions.Nodup) ∧
    (∀ (pt : String) (mf : List String), pt = "wordpress" ∨ pt = "web_app" →
      3 ≤ (Agents.generate_questions pt mf).questions.length ∧
      (Agents.generate_questions pt mf).questions.length ≤ 7) ∧
    (∀ (text : String) (counter_keys : List String), counter_keys.Nodup →
      3 ≤ (Backend.generate_clarifying_questions text counter_keys).length ∧
      (Backend.generate_clarifying_questions text counter_keys).length ≤ 6 ∧
      (Backend.generate_clarifying_questions text counter_keys).Nodup) := by
  refine ⟨?_, ?_, ?_⟩
  · intro pt mf hmf
    constructor
    · simp only [Agents.generate_questions, List.length_take]
      exact min_le_left _ _
    · simp only [Agents.generate_questions]
      apply List.Sublist.nodup (List.take_sublist _ _)
      apply List.Nodup.append (get_base_questions_nodup pt)
      · exact List.Nodup.filterMap
          (fun a a' b hb hb' => specific_table_value_inj a a' b hb hb') hmf
      · intro a ha ha'
        exact base_specific_disjoint pt a (specific_mem_values ha') ha
  · intro pt mf hpt
    have hb : (Agents.get_base_questions pt).length = 5 := by
      rcases hpt with h | h <;> subst h <;> decide
    constructor
    · simp only [Agents.generate_questions, List.length_take, List.length_append, hb]
      omega
    · simp only [Agents.generate_questions, List.length_take]
      exact min_le_left _ _
  · intro text ck hck
    simp only [Backend.generate_clarifying_questions]
    cases hpay : (Backend.extract_features text).any
        (fun k => ["payment", "ecommerce", "shop", "checkout", "cart"].contains k) <;>
    cases hintg : (Backend.extract_features text).any
        (fun k => ["api", "integration", "crm", "hubspot"].contains k)
    all_goals simp only [hpay, hintg, reduceIte, Bool.false_eq_true, if_false,
      List.append_nil, List.nil_append]
    all_goals (
      refine ⟨?_, ?_, ?_⟩
      · rw [List.length_take, List.length_append]
        simp only [List.length_append, List.length_cons, List.length_nil]
        omega
      · rw [List.length_take]
        exact min_le_left _ _
      · apply List.Sublist.nodup (List.take_sublist _ _)
        apply List.Nodup.append
        · decide
        · exact List.Sublist.nodup
            ((List.filter_sublist _).trans (List.take_sublist _ _)) hck
        · intro a ha ha'
          have := List.of_mem_filter ha'
          simp only [decide_not, Bool.not_eq_true', decide_eq_false_iff_not] at this
          exact absurd (List.elem_iff.mpr ha) (by simpa [List.contains] using this))

/-- Witness for the amended C5 at concrete inputs. -/
theorem C5_question_plan_bounds_witness :
    (Agents.generate_questions "wordpress" ["design_preferences"]).questions.length ≤ 7 ∧
    3 ≤ (Agents.generate_questions "wordpress" ["design_preferences"]).questions.length ∧
    3 ≤ (Backend.generate_clarifying_questions "We need a shop" []).length :=
  ⟨(C5_question_plan_bounds.1 "wordpress" ["design_preferences"] (by decide)).1,
   (C5_question_plan_bounds.2.1 "wordpress" ["design_preferences"] (Or.inl rfl)).1,
   (C5_question_plan_bounds.2.2 "We need a shop" [] List.nodup_nil).1⟩

/-- The total rounding error of the per-phase hour allocations is at most half
an hour per phase. -/
theorem sum_pyRound_phase_err (T : ℚ) :
    ∀ dist : List (String × ℚ),
      |(dist.map (fun pp => (PySem.pyRound (T * pp.2) : ℚ))).sum
          - T * (dist.map Prod.snd).sum| ≤ dist.length / 2 := by
  intro dist
  induction dist with
  | nil => simp
  | cons p t ih =>
      simp only [List.map_cons, List.sum_cons, List.length_cons]
      have h1 := PySem.pyRound_err (T * p.2)
      have habs : |((PySem.pyRound (T * p.2) : ℚ) + (t.map (fun pp => (PySem.pyRound (T * pp.2) : ℚ))).sum)
          - T * (p.2 + (t.map Prod.snd).sum)|
          ≤ |(PySem.pyRound (T * p.2) : ℚ) - T * p.2|
            + |(t.map (fun pp => (PySem.pyRound (T * pp.2) : ℚ))).sum - T * (t.map Prod.snd).sum| := by
        have := abs_add ((PySem.pyRound (T * p.2) : ℚ) - T * p.2)
          ((t.map (fun pp => (PySem.pyRound (T * pp.2) : ℚ))).sum - T * (t.map Prod.snd).sum)
        calc |((PySem.pyRound (T * p.2) : ℚ) + (t.map (fun pp => (PySem.pyRound (T * pp.2) : ℚ))).sum)
              - T * (p.2 + (t.map Prod.snd).sum)|
            = |((PySem.pyRound (T * p.2) : ℚ) - T * p.2)
              + ((t.map (fun pp => (PySem.pyRound (T * pp.2) : ℚ))).sum - T * (t.map Prod.snd).sum)| := by
              congr 1
              ring
          _ ≤ _ := this
      refine le_trans habs ?_
      have hlen : ((t.length + 1 : ℕ) : ℚ) / 2 = 1 / 2 + (t.length : ℚ) / 2 := by
        push_cast
        ring
      rw [hlen]
      exact add_le_add h1 ih

/-- Every phase distribution the estimator can select has at most 5 phases and
fractions summing to exactly 1. -/
theorem distribution_facts (pt : String) :
    ((Agents.phase_distributions.lookup pt).getD Agents.web_app_distribution).length ≤ 5 ∧
    (((Agents.phase_distributions.lookup pt).getD
        Agents.web_app_distribution).map Prod.snd).sum = 1 := by
  by_cases h1 : pt = "wordpress"
  · subst h1
    constructor
    · simp [Agents.phase_distributions, List.lookup]
    · simp [Agents.phase_distributions, List.lookup]
      norm_num
  by_cases h2 : pt = "web_app"
  · subst h2
    constructor
    · simp [Agents.phase_distributions, List.lookup, Agents.web_app_distribution]
    · simp [Agents.phase_distributions, List.lookup, Agents.web_app_distribution]
      norm_num
  by_cases h3 : pt = "hubspot"
  · subst h3
    constructor
    · simp [Agents.phase_distributions, List.lookup]
    · simp [Agents.phase_distributions, List.lookup]
      norm_num
  by_cases h4 : pt = "cloud"
  · subst h4
    constructor
    · simp [Agents.phase_distributions, List.lookup]
    · simp [Agents.phase_distributions, List.lookup]
      norm_num
  have hnone : Agents.phase_distributions.lookup pt = none := by
    simp [Agents.phase_distributions, List.lookup, beq_eq_false_iff_ne.mpr h1,
      beq_eq_false_iff_ne.mpr h2, beq_eq_false_iff_ne.mpr h3, beq_eq_false_iff_ne.mpr h4]
  rw [hnone]
  constructor
  · simp [Agents.web_app_distribution]
  · simp [Agents.web_app_distribution]
    norm_num

/-- C8 counterexample: on the wordpress scope with features booking, blog and
reviews (total hours 189.75) the per-phase rounded hours sum to 188 while
`totalHours` is 190 — a drift of 2, outside the claimed ±1. -/
theorem C8_phase_sum_counterexample :
    ((Agents.estimate_project Agents.main_rate_card phaseDriftScope none).phases.map
        (fun p => p.hours)).sum = 188 ∧
    (Agents.estimate_project Agents.main_rate_card phaseDriftScope none).totalHours = 190 ∧
    ¬ (|((Agents.estimate_project Agents.main_rate_card phaseDriftScope none).phases.map
          (fun p => p.hours)).sum
        - (Agents.estimate_project Agents.main_rate_card phaseDriftScope none).totalHours| ≤ 1) := by
  have hfeat : Agents.calculate_feature_hours ["booking", "blog", "reviews"] "wordpress" = 85 := by
    simp [Agents.calculate_feature_hours, Agents.project_templates, List.lookup]
    norm_num
  have hbase : Agents.calculate_base_hours phaseDriftScope = 80 := by
    simp [Agents.calculate_base_hours, Agents.project_templates, List.lookup, phaseDriftScope]
  have hmult : Agents.complexity_multiplier phaseDriftScope = 1.15 := by
    simp [Agents.complexity_multiplier, phaseDriftScope]
    norm_num
  have hT : Agents.apply_complexity_factors
      (Agents.calculate_base_hours phaseDriftScope
        + Agents.calculate_feature_hours phaseDriftScope.features phaseDriftScope.projectType
        + Agents.calculate_integration_hours phaseDriftScope.integrations)
      phaseDriftScope = 189.75 := by
    rw [Agents.apply_complexity_factors, hmult, hbase]
    show (80 + Agents.calculate_feature_hours ["booking", "blog", "reviews"] "wordpress"
      + Agents.calculate_integration_hours []) * (1.15 : ℚ) = 189.75
    rw [hfeat]
    simp [Agents.calculate_integration_hours]
    norm_num
  have hsum : ((Agents.estimate_project Agents.main_rate_card phaseDriftScope none).phases.map
      (fun p => p.hours)).sum = 188 := by
    simp only [Agents.estimate_project, Agents.calculate_phases, hT, List.map_map]
    have hdist : Agents.phase_distributions.lookup phaseDriftScope.projectType
        = some [("Discovery & Planning", 0.10), ("Design", 0.25), ("Development", 0.45),
                ("Testing", 0.15), ("Deployment", 0.05)] := by
      simp [Agents.phase_distributions, List.lookup, phaseDriftScope]
    rw [hdist]
    simp only [Option.getD_some, List.map_cons, List.map_nil, Function.comp]
    simp only [List.sum_cons, List.sum_nil]
    norm_num [PySem.pyRound]
  have htot : (Agents.estimate_project Agents.main_rate_card phaseDriftScope none).totalHours
      = 190 := by
    simp only [Agents.estimate_project, hT]
    norm_num [PySem.pyRound]
  refine ⟨hsum, htot, ?_⟩
  rw [hsum, htot]
  decide

/-- C8 (amended): for every scope, the sum of per-phase rounded hours differs
from `totalHours` by at most 3 (half an hour of rounding slack per phase,
at most 5 phases, plus the rounding of the total itself); the ±1 of the claim
fails, see the counterexample. -/
theorem C8_phase_sum_within_3 (scope : Agents.ProjectScope) (sim : Option ℚ) :
    |((Agents.estimate_project Agents.main_rate_card scope sim).phases.map
        (fun p => p.hours)).sum
      - (Agents.estimate_project Agents.main_rate_card scope sim).totalHours| ≤ 3 := by
  simp only [Agents.estimate_project, Agents.calculate_phases, List.map_map]
  set T := Agents.apply_complexity_factors
    (Agents.calculate_base_hours scope
      + Agents.calculate_feature_hours scope.features scope.projectType
      + Agents.calculate_integration_hours scope.integrations) scope with hTdef
  set dist := (Agents.phase_distributions.lookup scope.projectType).getD
    Agents.web_app_distribution with hdist
  have hfacts := distribution_facts scope.projectType
  rw [← hdist] at hfacts
  have herr := sum_pyRound_phase_err T dist
  rw [hfacts.2, mul_one] at herr
  have hlen : (dist.length : ℚ) / 2 ≤ 5 / 2 := by
    have : (dist.length : ℚ) ≤ 5 := by exact_mod_cast hfacts.1
    linarith
  have hround := PySem.pyRound_err T
  have hcast : (((dist.map ((fun p => p.hours) ∘ fun pp =>
      { phase := pp.1, hours := PySem.pyRound (T * pp.2),
        cost := PySem.pyRound (T * pp.2 * ((Agents.main_rate_card.map Prod.snd).sum
          / (Agents.main_rate_card.length : ℚ))) : Agents.Phase })).sum : ℤ) : ℚ)
      = (dist.map (fun pp => (PySem.pyRound (T * pp.2) : ℚ))).sum := by
    rw [Int.cast_list_sum, List.map_map]
    rfl
  rw [show ∀ a b : ℤ, |a - b| ≤ 3 ↔ |((a : ℚ)) - ((b : ℚ))| ≤ 3 from ?_]
  · calc |(((dist.map ((fun p => p.hours) ∘ fun pp =>
          { phase := pp.1, hours := PySem.pyRound (T * pp.2),
            cost := PySem.pyRound (T * pp.2 * ((Agents.main_rate_card.map Prod.snd).sum
              / (Agents.main_rate_card.length : ℚ))) : Agents.Phase })).sum : ℤ) : ℚ)
          - ((PySem.pyRound T : ℤ) : ℚ)|
        = |((dist.map (fun pp => (PySem.pyRound (T * pp.2) : ℚ))).sum - T)
            + (T - (PySem.pyRound T : ℚ))| := by rw [hcast]; congr 1; ring
      _ ≤ |(dist.map (fun pp => (PySem.pyRound (T * pp.2) : ℚ))).sum - T|
            + |T - (PySem.pyRound T : ℚ)| := abs_add _ _
      _ ≤ 5 / 2 + 1 / 2 := by
            refine add_le_add (le_trans herr hlen) ?_
            rw [abs_sub_comm]
            linarith [hround]
      _ = 3 := by norm_num
  · intro a b
    rw [← Int.cast_sub, ← Int.cast_abs]
    constructor
    · intro h
      exact_mod_cast h
    · intro h
      exact_mod_cast h

/-- No entry of a list without the key `role` survives the role filter. -/
theorem filter_key_eq_nil {t : List (String × ℚ)} {role : String}
    (h : ∀ q ∈ t, q.1 ≠ role) :
    t.filter (fun p => decide (role = p.1)) = [] := by
  rw [List.filter_eq_nil_iff]
  intro p hp
  simp [(h p hp).symm]

/-- After upserting `role` into a unique-key table that contains it, filtering
for `role` leaves exactly the updated row. -/
theorem map_upsert_filter {role : String} {rate : ℚ} :
    ∀ l : List (String × ℚ), (l.map Prod.fst).Nodup →
    l.any (fun p => decide (p.1 = role)) = true →
    (l.map (fun p => if p.1 = role then (p.1, rate) else p)).filter
        (fun p => decide (role = p.1)) = [(role, rate)] := by
  intro l
  induction l with
  | nil => simp
  | cons p t ih =>
    intro hnd hany
    by_cases hp : p.1 = role
    · have htail : ∀ q ∈ t, q.1 ≠ role := by
        intro q hq hqr
        have : p.1 ∈ t.map Prod.fst := by
          rw [hp, ← hqr]
          exact List.mem_map_of_mem _ hq
        simp only [List.map_cons, List.nodup_cons] at hnd
        exact hnd.1 this
      have hmap : (t.map (fun p => if p.1 = role then (p.1, rate) else p)).filter
          (fun p => decide (role = p.1)) = [] := by
        rw [List.filter_eq_nil_iff]
        intro x hx
        obtain ⟨q, hq, rfl⟩ := List.mem_map.mp hx
        rw [if_neg (htail q hq)]
        simp [(htail q hq).symm]
      simp only [List.map_cons, if_pos hp, List.filter_cons, hmap]
      simp [hp]
    · have htany : t.any (fun p => decide (p.1 = role)) = true := by
        simp only [List.any_cons, Bool.or_eq_true, decide_eq_true_eq] at hany
        rcases hany with h' | h'
        · exact absurd h' hp
        · simpa using h'
      simp only [List.map_cons, List.nodup_cons] at hnd
      have := ih hnd.2 htany
      simp only [List.map_cons, if_neg hp, List.filter_cons]
      rw [if_neg (by simp [Ne.symm hp])]
      exact this

/-- `RateCardStore.update_rate_card` with a single-row payload replaces the
whole unique-key table by that row. -/
theorem update_rate_card_single (stored : List (String × ℚ))
    (h : (stored.map Prod.fst).Nodup) (role : String) (rate : ℚ) :
    Db.update_rate_card stored [(role, rate)] = [(role, rate)] := by
  simp only [Db.update_rate_card, List.foldl, List.any_cons, List.any_nil, Bool.or_false]
  by_cases hc : stored.any (fun p => decide (p.1 = role)) = true
  · simp only [Db.upsert_role]
    rw [if_pos (by simpa using hc)]
    exact map_upsert_filter stored h hc
  · simp only [Db.upsert_role]
    rw [if_neg (by simpa using hc)]
    rw [List.filter_append]
    have hnil : stored.filter (fun p => decide (role = p.1)) = [] := by
      apply filter_key_eq_nil
      intro q hq hqr
      apply hc
      rw [List.any_eq_true]
      exact ⟨q, hq, by simp [hqr]⟩
    rw [hnil]
    simp

/-- C7: rate-card update is whole-document replacement: updating with the
single-entry payload `{"Project Manager": 100}` leaves a stored card whose
only role is "Project Manager"; every other previously stored role is absent
and reading the card returns exactly the new payload. -/
theorem C7_rate_card_whole_replacement (stored : List (String × ℚ))
    (h : (stored.map Prod.fst).Nodup) :
    Backend.orchestrator_update_rate_card stored [("Project Manager", 100)]
      = [("Project Manager", 100)] ∧
    Db.get_rate_card (Backend.orchestrator_update_rate_card stored
        [("Project Manager", 100)]) = [("Project Manager", 100)] ∧
    ∀ r, r ≠ "Project Manager" →
      (Backend.orchestrator_update_rate_card stored
          [("Project Manager", 100)]).lookup r = none := by
  have hfirst : Backend.orchestrator_update_rate_card stored [("Project Manager", 100)]
      = [("Project Manager", 100)] := by
    simp only [Backend.orchestrator_update_rate_card, Backend.canonical_roles]
    rw [show (([("Project Manager", (100 : ℚ))].filter (fun p =>
        ["Software Developer", "Senior Software Developer", "Software Architect",
         "WordPress Developer", "Project Manager",
         "Cloud Architect / DevOps Engineer"].contains p.1)))
      = [("Project Manager", 100)] by simp]
    rw [if_pos (by simp)]
    exact update_rate_card_single stored h _ _
  refine ⟨hfirst, ?_, ?_⟩
  · rw [hfirst]
    simp [Db.get_rate_card]
  · intro r hr
    rw [hfirst]
    simp [List.lookup, beq_eq_false_iff_ne.mpr hr]

/-- Witness for C7: replacing the seeded default card. -/
theorem C7_rate_card_whole_replacement_witness :
    ((Db.DEFAULT_RATE_CARD.map Prod.fst).Nodup) ∧
    Backend.orchestrator_update_rate_card Db.DEFAULT_RATE_CARD
        [("Project Manager", 100)] = [("Project Manager", 100)] ∧
    (Backend.orchestrator_update_rate_card Db.DEFAULT_RATE_CARD
        [("Project Manager", 100)]).lookup "Software Developer" = none :=
  ⟨by decide,
   (C7_rate_card_whole_replacement Db.DEFAULT_RATE_CARD (by decide)).1,
   (C7_rate_card_whole_replacement Db.DEFAULT_RATE_CARD (by decide)).2.2
     "Software Developer" (by decide)⟩

/-- C10: the pricing-anomaly check of `validate_proposal` divides by the number
of roles, so on any estimate with an empty roles list validation raises
`ZeroDivisionError` instead of returning a verdict. -/
theorem C10_validate_empty_roles_raises (scope : Agents.ProjectScope)
    (estimate : Agents.Estimate) (h : estimate.roles = []) :
    Agents.validate_proposal scope estimate = .error .zeroDivision := by
  simp [Agents.validate_proposal, Agents.has_pricing_anomaly, h]

/-- Witness for C10 at a concrete estimate with no roles. -/
theorem C10_validate_empty_roles_raises_witness :
    emptyRolesEstimate.roles = [] ∧
    Agents.validate_proposal
      { projectType := "unknown", features := [], integrations := [], platforms := ["Web"],
        security := "basic", compliance := "", assumptions := [] }
      emptyRolesEstimate = .error .zeroDivision :=
  ⟨rfl, C10_validate_empty_roles_raises _ _ rfl⟩

/-- C9: `build_scope` is not frame-preserving on `intent_data`: when the
answers contain `additional_features`, those entries are appended in place to
`intent_data["detectedFeatures"]` (changing the caller's intent data whenever
the list is non-empty); without that key the intent data is left unchanged. -/
theorem C9_build_scope_frame_effect (intent : Agents.IntentData)
    (answers : Agents.Answers) :
    ((Agents.build_scope intent answers).2.detectedFeatures
      = intent.detectedFeatures ++ (answers.additional_features.getD [])) ∧
    (answers.additional_features = none →
      (Agents.build_scope intent answers).2 = intent) ∧
    (∀ extra, answers.additional_features = some extra → extra ≠ [] →
      (Agents.build_scope intent answers).2.detectedFeatures
        ≠ intent.detectedFeatures) := by
  refine ⟨?_, ?_, ?_⟩
  · cases h : answers.additional_features <;>
      simp [Agents.build_scope, Agents.compile_features, h]
  · intro h
    simp [Agents.build_scope, Agents.compile_features, h]
  · intro extra hsome hne
    simp only [Agents.build_scope, Agents.compile_features, hsome]
    intro heq
    have hlen := congrArg List.length heq
    simp [List.length_append] at hlen
    exact hne hlen

/-- Witness for C9: with no `additional_features` answer the intent data is
returned unchanged; answering `["api"]` appends it to `detectedFeatures`. -/
theorem C9_build_scope_frame_effect_witness :
    ((Agents.build_scope (Agents.extract_intent c2_input) {}).2
      = Agents.extract_intent c2_input) ∧
    ((Agents.build_scope (Agents.extract_intent c2_input)
        { additional_features := some ["api"] }).2.detectedFeatures
      = (Agents.extract_intent c2_input).detectedFeatures ++ ["api"]) :=
  ⟨(C9_build_scope_frame_effect _ _).2.1 rfl,
   (C9_build_scope_frame_effect _ { additional_features := some ["api"] }).1⟩
